import Mathlib

/-!
# Verification of the daisybase client API and ASC500 example programs

Shallow embedding of the client-visible parts of the ASC500 "daisybase"
SDK (attocube-systems/ASC500_Python_Control): the return-code enumeration
and metadata structure from the vendor headers, and the control flow of
the example client programs `example500.c`, `example500_counter.cpp` and
`example500_counter_clean.cpp`.

The application server is an external process; calls into the library
(`DYB_getParameterSync`, `DYB_getDataBuffer`, ...) are modelled by
environments (oracles) that supply the return code and the values written
through output parameters for each successive call.  The example programs
are deterministic given such an environment, so each loop of the examples
is embedded as a function of the environment.
-/

set_option linter.unusedVariables false

/-- C `Int32` (`daisydecl.h`): modelled as unbounded integers; none of the
verified code paths performs arithmetic that can overflow 32 bits. -/
abbrev Int32 := Int

/-- C `Flt32` (`daisydecl.h`), single precision float.  Modelled as `ℚ`;
the verified properties never depend on rounding behaviour. -/
abbrev Flt32 := ℚ

-- Return codes of the daisybase functions (`daisybase.h`, lines 46-60).
inductive DYB_Rc where
  | DYB_Ok                               -- No error
  | DYB_Error                            -- Unknown / other error
  | DYB_Timeout                          -- Communication timeout
  | DYB_NotConnected                     -- No contact to controller via USB
  | DYB_DriverError                      -- Error when calling USB driver
  | DYB_FileNotFound                     -- Controller boot image not found
  | DYB_SrvNotFound                      -- Server executable not found
  | DYB_ServerLost                       -- No contact to the server
  | DYB_OutOfRange                       -- Invalid parameter in fct call
  | DYB_WrongContext                     -- Call in invalid thread context
  | DYB_XmlError                         -- Invalid format of profile file
  | DYB_OpenError                        -- Can't open specified file
  deriving DecidableEq, Repr

open DYB_Rc

/-- Numeric value of each return code as assigned by the C `enum`
(successive values starting at 0). -/
def DYB_Rc.toNat : DYB_Rc → Nat
  | DYB_Ok           => 0
  | DYB_Error        => 1
  | DYB_Timeout      => 2
  | DYB_NotConnected => 3
  | DYB_DriverError  => 4
  | DYB_FileNotFound => 5
  | DYB_SrvNotFound  => 6
  | DYB_ServerLost   => 7
  | DYB_OutOfRange   => 8
  | DYB_WrongContext => 9
  | DYB_XmlError     => 10
  | DYB_OpenError    => 11

-- The enumeration in declaration order (`daisybase.h`).
def allRcs : List DYB_Rc :=
  [DYB_Ok, DYB_Error, DYB_Timeout, DYB_NotConnected, DYB_DriverError,
   DYB_FileNotFound, DYB_SrvNotFound, DYB_ServerLost, DYB_OutOfRange,
   DYB_WrongContext, DYB_XmlError, DYB_OpenError]


-- Data ordering of a measurement data block (`metadata.h`, lines 58-67).
inductive DYB_Order where
  | DYB_Linear      -- 1 Variable, unlimited, no origin defined
  | DYB_Triggered   -- 1 Variable, unlimited, absolute origin defined
  | DYB_Cyclic      -- 1 Variable, ranging from absolute origin to limit
  | DYB_FfScan      -- 2 Variables, forward-forward scan, origin defined
  | DYB_FbScan      -- 2 Variables, forward-backward scan, origin def
  | DYB_BbScan      -- 2 Variables, backward-backward scan, origin def
  | DYB_BfScan      -- 2 Variables, backward-forward scan, origin def
  | DYB_BfNone      -- Invalid order
  deriving DecidableEq, Repr

/-- Numeric value of each data order as assigned by the C `enum`
(`metadata.h`: explicit values 0-6, `DYB_BfNone` implicitly 7). -/
def DYB_Order.toNat : DYB_Order → Nat
  | .DYB_Linear    => 0
  | .DYB_Triggered => 1
  | .DYB_Cyclic    => 2
  | .DYB_FfScan    => 3
  | .DYB_FbScan    => 4
  | .DYB_BbScan    => 5
  | .DYB_BfScan    => 6
  | .DYB_BfNone    => 7

-- The data-order enumeration in declaration order (`metadata.h`).
def allOrders : List DYB_Order :=
  [.DYB_Linear, .DYB_Triggered, .DYB_Cyclic, .DYB_FfScan,
   .DYB_FbScan, .DYB_BbScan, .DYB_BfScan, .DYB_BfNone]

-- Physical units of variables (`metadata.h`, lines 75-119).
inductive DYB_Unit where
  | DYB_UnitNone | DYB_UnitM | DYB_UnitMm | DYB_UnitUm | DYB_UnitNm
  | DYB_UnitPm | DYB_UnitV | DYB_UnitMv | DYB_UnitUv | DYB_UnitNv
  | DYB_UnitMhz | DYB_UnitKhz | DYB_UnitHz | DYB_UnitIhz | DYB_UnitKs
  | DYB_UnitS | DYB_UnitMs | DYB_UnitUs | DYB_UnitNs | DYB_UnitPs
  | DYB_UnitA | DYB_UnitMa | DYB_UnitUa | DYB_UnitNa | DYB_UnitW
  | DYB_UnitMw | DYB_UnitUw | DYB_UnitNw | DYB_UnitT | DYB_UnitMt
  | DYB_UnitUt | DYB_UnitNt | DYB_UnitK | DYB_UnitMk | DYB_UnitUk
  | DYB_UnitNk | DYB_UnitDeg | DYB_UnitMdeg | DYB_UnitUdeg | DYB_UnitNdeg
  | DYB_UnitCos | DYB_UnitDB | DYB_UnitLSB
  deriving DecidableEq, Repr

/-- Metadata accompanying every measurement data block
(`metadata.h`, lines 133-149, struct `DYB_Meta`). -/
structure DYB_Meta where
  _order      : DYB_Order  -- Data order
  _pointsX    : Int32      -- Number of data in a line
  _pointsY    : Int32      -- Number of lines (of a scan)
  _stepX      : Flt32      -- Distance of two data points in physical units
  _stepY      : Flt32      -- Distance of two lines in physical units
  _originX    : Flt32      -- Position (X) of the first point in physical units
  _originY    : Flt32      -- Position (Y) of the first point in physical units
  _rotation   : Flt32      -- Rotation angle of scan area in rad
  _unitXY     : DYB_Unit   -- Physical unit of independent variable(s)
  _stepVal    : Flt32      -- Scale of data values (units per LSB)
  _stepValNum : Flt32      -- Scale numerator of data values
  _offsetVal  : Flt32      -- Offset to the data values in units
  _unitVal    : DYB_Unit   -- Physical unit of data values

/-- The tuple of all components of a `DYB_Meta`, in declaration order. -/
def DYB_Meta.toTuple (m : DYB_Meta) :
    DYB_Order × Int32 × Int32 × Flt32 × Flt32 × Flt32 × Flt32 × Flt32 ×
    DYB_Unit × Flt32 × Flt32 × Flt32 × DYB_Unit :=
  (m._order, m._pointsX, m._pointsY, m._stepX, m._stepY, m._originX,
   m._originY, m._rotation, m._unitXY, m._stepVal, m._stepValNum,
   m._offsetVal, m._unitVal)

/-- Rebuild a `DYB_Meta` from the tuple of its components. -/
def DYB_Meta.ofTuple
    (t : DYB_Order × Int32 × Int32 × Flt32 × Flt32 × Flt32 × Flt32 × Flt32 ×
         DYB_Unit × Flt32 × Flt32 × Flt32 × DYB_Unit) : DYB_Meta :=
  ⟨t.1, t.2.1, t.2.2.1, t.2.2.2.1, t.2.2.2.2.1, t.2.2.2.2.2.1,
   t.2.2.2.2.2.2.1, t.2.2.2.2.2.2.2.1, t.2.2.2.2.2.2.2.2.1,
   t.2.2.2.2.2.2.2.2.2.1, t.2.2.2.2.2.2.2.2.2.2.1,
   t.2.2.2.2.2.2.2.2.2.2.2.1, t.2.2.2.2.2.2.2.2.2.2.2.2⟩

/-- TCP port number of the ASC500 application server
(`asc500.h`, line 31: `#define ASC500_PORT_NUMBER 7000`). -/
def ASC500_PORT_NUMBER : Nat := 7000

-- Scanner state bit masks for ID_SCAN_STATUS (`asc500.h`, lines 260-264).
def SCANSTATE_PAUSE : Int32 := 0x01

def SCANSTATE_MOVING : Int32 := 0x02

def SCANSTATE_SCAN : Int32 := 0x04

def SCANSTATE_IDLE : Int32 := 0x08

def SCANSTATE_LOOP : Int32 := 0x10

-- Scanner commands for ID_SCAN_COMMAND (`asc500.h`, lines 237-239).
def SCANRUN_OFF : Int32 := 0x00

def SCANRUN_ON : Int32 := 0x01

def SCANRUN_PAUSE : Int32 := 0x02

/-- Modelled from the spec: `daisydata.h` declares
`const char * DYB_printRc(DYB_Rc rc)` returning "a descriptive text for a
given daisybase return code"; its implementation lives in the closed
vendor library and is not in the repository.  The descriptions are taken
from the `daisybase.h` enum documentation; no verified property depends
on the exact strings, only on the call being made. -/
def DYB_printRc : DYB_Rc → String
  | DYB_Ok           => "Ok"
  | DYB_Error        => "Unknown / other error"
  | DYB_Timeout      => "Communication timeout"
  | DYB_NotConnected => "No contact to controller via USB"
  | DYB_DriverError  => "Error when calling USB driver"
  | DYB_FileNotFound => "Controller boot image not found"
  | DYB_SrvNotFound  => "Server executable not found"
  | DYB_ServerLost   => "No contact to the server"
  | DYB_OutOfRange   => "Invalid parameter in fct call"
  | DYB_WrongContext => "Call in invalid thread context"
  | DYB_XmlError     => "Invalid format of profile file"
  | DYB_OpenError    => "Cannot open specified file"

namespace Example500

/-- `checkRc` of `example500.c` (lines 69-75): prints one line if the code
is not `DYB_Ok`, otherwise nothing.  The returned list is the sequence of
lines printed; the function has no other effect and returns no value. -/
def checkRc (call : String) (rc : DYB_Rc) : List String :=
  if rc ≠ DYB_Ok then
    [call ++ " failed : " ++ DYB_printRc rc]
  else []

end Example500

namespace Counter

/-- `checkRc` of `example500_counter.cpp` (lines 19-27): like the
`example500.c` version but the printed line also carries the source line
number. -/
def checkRc (call : String) (rc : DYB_Rc) (line : Int) : List String :=
  if rc ≠ DYB_Ok then
    [call ++ " failed : " ++ DYB_printRc rc ++ ", line " ++ toString line]
  else []

end Counter

/-- Environment for the data-polling loops: for iteration `n`,
`getDataBuffer n` is the return code of `DYB_getDataBuffer` together with
the value it leaves in `dataSize`, and `writeBuffer n` is the return code
of `DYB_writeBuffer` (if called). -/
structure DataEnv where
  getDataBuffer : Nat → DYB_Rc × Int32
  writeBuffer : Nat → DYB_Rc

/-- The value of `rc` at the end of iteration `k` of a `pollDataPartial`
loop body: `rc` is first assigned the `DYB_getDataBuffer` code and then,
if `dataSize > 0`, overwritten with the `DYB_writeBuffer` code. -/
def pollEffRc (env : DataEnv) (k : Nat) : DYB_Rc :=
  if 0 < (env.getDataBuffer k).2 then env.writeBuffer k else (env.getDataBuffer k).1

/-- The `while (rc == DYB_Ok && loop < bound)` loop shared by
`pollDataPartial` of `example500.c` (bound 100) and of
`example500_counter.cpp` (bound 10).  Returns the final `rc`, the final
value of `loop` (= number of iterations executed) and the list of
iteration indices at which `DYB_writeBuffer` was invoked.  The `fuel`
argument is only a termination device; starting it at `bound` it can
never run out before the `loop < bound` test fails. -/
def pollDataPartialAux (env : DataEnv) (bound : Nat) :
    Nat → DYB_Rc → Nat → DYB_Rc × Nat × List Nat
  | loop, rc, 0 => (rc, loop, [])
  | loop, rc, fuel+1 =>
    if rc = DYB_Ok ∧ loop < bound then
      let g := env.getDataBuffer loop
      let rc2 := if 0 < g.2 then env.writeBuffer loop else g.1
      let rest := pollDataPartialAux env bound (loop+1) rc2 fuel
      (rest.1, rest.2.1, (if 0 < g.2 then [loop] else []) ++ rest.2.2)
    else (rc, loop, [])

namespace Example500

/-- `pollDataPartial` of `example500.c` (lines 135-162): cyclic read of
incomplete frames, at most 100 loop iterations. -/
def pollDataPartial (env : DataEnv) : DYB_Rc × Nat × List Nat :=
  pollDataPartialAux env 100 0 DYB_Ok 100

end Example500

namespace Counter

/-- `pollDataPartial` of `example500_counter.cpp` (lines 148-186): same
loop as in `example500.c` but with at most 10 iterations. -/
def pollDataPartial (env : DataEnv) : DYB_Rc × Nat × List Nat :=
  pollDataPartialAux env 10 0 DYB_Ok 10

/-- The event-wait loop of `pollDataFull` in `example500_counter.cpp`
(lines 57-66): `rc` is initialized to `DYB_Ok`; the loop body only
assigns `event = DYB_waitForEvent(...)`.  `env n` is the event value
returned by the n-th wait.  `pollDataFullWait env n` is the state
`(rc, event)` after at most `n` iterations; once the guard
`event == 0 && rc == DYB_Ok` fails the state freezes. -/
def pollDataFullWait (env : Nat → Int32) : Nat → DYB_Rc × Int32
  | 0 => (DYB_Ok, 0)
  | n+1 =>
    let s := pollDataFullWait env n
    if s.2 = 0 ∧ s.1 = DYB_Ok then (s.1, env n) else s

end Counter

/-- The output-activation polling loop appearing in the `main` of
`example500.c` (lines 241-246) and of `example500_counter.cpp`
(lines 249-255):

    while (!outActive && rc == DYB_Ok) {
      rc = DYB_getParameterSync(ID_OUTPUT_STATUS, 0, &outActive); ... }

`env n` is the return code of the n-th `DYB_getParameterSync` call
together with the value it leaves in `outActive`; `rc0` is the value of
`rc` when the loop is reached (the result of the preceding
`DYB_configureChannel` resp. `DYB_configureDataBuffering` call —
`setParameter` does not assign to it).  `outputWait env rc0 n` is the
state `(rc, outActive)` after at most `n` iterations; once the guard
fails the state freezes. -/
def outputWait (env : Nat → DYB_Rc × Int32) (rc0 : DYB_Rc) : Nat → DYB_Rc × Int32
  | 0 => (rc0, 0)
  | n+1 =>
    let s := outputWait env rc0 n
    if s.2 = 0 ∧ s.1 = DYB_Ok then env n else s

/-- Environment for `sendScannerCommand` of `example500.c`: results of the
n-th `DYB_setParameterAsync(ID_SCAN_COMMAND, 0, command)` and of the n-th
`DYB_getParameterSync(ID_SCAN_STATUS, 0, &state)` (code and state value). -/
structure ScanEnv where
  setParameterAsync : Nat → DYB_Rc
  getParameterSync : Nat → DYB_Rc × Int32

/-- One body of the scan-start loop in `sendScannerCommand`
(`example500.c`, lines 177-182), transcribed literally: `rc` is assigned
the `DYB_setParameterAsync` result and then immediately reassigned the
`DYB_getParameterSync` result; `state` receives the polled status. -/
def sendScannerCommandStep (env : ScanEnv) (n : Nat) : DYB_Rc × Int32 :=
  let rc := env.setParameterAsync n
  let rc := (env.getParameterSync n).1
  let state := (env.getParameterSync n).2
  (rc, state)

/-- The `while (!rc && !(state & SCANSTATE_SCAN))` loop of
`sendScannerCommand` for `command == SCANRUN_ON` (`example500.c`,
lines 176-182).  `scanStartWait env n` is the state `(rc, state)` after
at most `n` iterations, starting from `(DYB_Ok, 0)`; once the guard fails
the state freezes and `rc` is the function's return value. -/
def scanStartWait (env : ScanEnv) : Nat → DYB_Rc × Int32
  | 0 => (DYB_Ok, 0)
  | n+1 =>
    let s := scanStartWait env n
    if s.1 = DYB_Ok ∧ Int.land s.2 SCANSTATE_SCAN = 0 then sendScannerCommandStep env n else s

/-- The move-to-position wait loop of `example500.c` `main`
(lines 252-257):

    scanState = SCANSTATE_MOVING;
    while (scanState != SCANSTATE_IDLE) {
      SLEEP(50);
      rc = DYB_getParameterSync(ID_SCAN_STATUS, 0, &scanState);
      checkRc("DYB_getParameterSync", rc); }

`env n` is the n-th `DYB_getParameterSync` result (code, scanState
written).  `posWaitInvokes env n` holds iff the loop performs its n-th
call: the guard tests only `scanState`, never `rc`, so the call is made
exactly when no earlier call read back `SCANSTATE_IDLE` (the initial
`SCANSTATE_MOVING` differs from `SCANSTATE_IDLE`, so call 0 always
happens). -/
def posWaitInvokes (env : Nat → DYB_Rc × Int32) (n : Nat) : Prop :=
  ∀ j, j < n → (env j).2 ≠ SCANSTATE_IDLE

instance (env : Nat → DYB_Rc × Int32) (n : Nat) :
    Decidable (posWaitInvokes env n) :=
  Nat.decidableBallLT n fun j _ => (env j).2 ≠ SCANSTATE_IDLE

namespace Example500

/-- Environment for `ASC500_getXYPos` (`example500.c`, lines 52-66): for
each of the four chained `DYB_getParameterSync` inquiries, the return
code and the value the call leaves in its output variable (if the call
is performed at all). -/
structure XYEnv where
  getZeroX : DYB_Rc × Int32
  getZeroY : DYB_Rc × Int32
  getCurrX : DYB_Rc × Int32
  getCurrY : DYB_Rc × Int32

/-- Observable outcome of `ASC500_getXYPos`: the returned code, the pair
`(*x, *y)` written through the pointers (`none` when the null-pointer
branch was taken and nothing was written), and the number of
`DYB_getParameterSync` inquiries performed. -/
structure XYResult where
  rc : DYB_Rc
  outputs : Option (ℚ × ℚ)
  inquiries : Nat
  deriving DecidableEq

/-- `ASC500_getXYPos` of `example500.c` (lines 52-66).  `xNull`/`yNull`
say whether the corresponding pointer argument is NULL.  The four local
variables start at 0; `rc = rc ? rc : DYB_getParameterSync(...)`
performs each inquiry only while `rc` is still `DYB_Ok`; finally
`*x = (xOrigin + xRelative) / 1.e5` and `*y = (yOrigin + yRelative) / 1.e5`
are written unconditionally inside the non-null branch. -/
def ASC500_getXYPos (env : XYEnv) (xNull yNull : Bool) : XYResult :=
  if xNull || yNull then
    { rc := DYB_OutOfRange, outputs := none, inquiries := 0 }
  else
    let rc0 := DYB_Ok
    let xOrigin : Int32 := if rc0 = DYB_Ok then env.getZeroX.2 else 0
    let rc1 := if rc0 = DYB_Ok then env.getZeroX.1 else rc0
    let yOrigin : Int32 := if rc1 = DYB_Ok then env.getZeroY.2 else 0
    let rc2 := if rc1 = DYB_Ok then env.getZeroY.1 else rc1
    let xRelative : Int32 := if rc2 = DYB_Ok then env.getCurrX.2 else 0
    let rc3 := if rc2 = DYB_Ok then env.getCurrX.1 else rc2
    let yRelative : Int32 := if rc3 = DYB_Ok then env.getCurrY.2 else 0
    let rc4 := if rc3 = DYB_Ok then env.getCurrY.1 else rc3
    let calls := (if rc0 = DYB_Ok then 1 else 0) + (if rc1 = DYB_Ok then 1 else 0) +
                 (if rc2 = DYB_Ok then 1 else 0) + (if rc3 = DYB_Ok then 1 else 0)
    { rc := rc4,
      outputs := some (((xOrigin + xRelative : Int) : ℚ) / 100000,
                       ((yOrigin + yRelative : Int) : ℚ) / 100000),
      inquiries := calls }

/-- serverPort argument of the `DYB_init` call in `example500.c` `main`
(line 209). -/
def DYB_init_serverPort : Nat := ASC500_PORT_NUMBER

end Example500

namespace Counter

/-- serverPort argument of the `DYB_init` call in
`example500_counter.cpp` `main` (line 210). -/
def DYB_init_serverPort : Nat := ASC500_PORT_NUMBER

end Counter

namespace CounterClean

/-- serverPort argument of the `DYB_init` call in
`example500_counter_clean.cpp` `main` (line 117). -/
def DYB_init_serverPort : Nat := ASC500_PORT_NUMBER

end CounterClean

/-- The serverPort arguments of all `DYB_init` calls occurring in the
example sources, one per `main`. -/
def allInitServerPorts : List Nat :=
  [Example500.DYB_init_serverPort, Counter.DYB_init_serverPort,
   CounterClean.DYB_init_serverPort]

/-! ## Helper lemmas -/

theorem pollDataPartialAux_stop (env : DataEnv) (bound loop : Nat) (rc : DYB_Rc)
    (fuel : Nat) (h : rc ≠ DYB_Ok) :
    pollDataPartialAux env bound loop rc fuel = (rc, loop, []) := by
  cases fuel with
  | zero => rfl
  | succ n => simp [pollDataPartialAux, h]

theorem pollDataPartialAux_loop_le (env : DataEnv) (bound : Nat) :
    ∀ fuel loop rc, loop ≤ (pollDataPartialAux env bound loop rc fuel).2.1 := by
  intro fuel
  induction fuel with
  | zero => intro loop rc; simp [pollDataPartialAux]
  | succ n ih =>
    intro loop rc
    by_cases h : rc = DYB_Ok ∧ loop < bound
    · simp only [pollDataPartialAux, if_pos h]
      exact le_trans (Nat.le_succ loop) (ih (loop + 1) _)
    · simp [pollDataPartialAux, if_neg h]

theorem pollDataPartialAux_le_bound (env : DataEnv) (bound : Nat) :
    ∀ fuel loop rc, loop ≤ bound →
      (pollDataPartialAux env bound loop rc fuel).2.1 ≤ bound := by
  intro fuel
  induction fuel with
  | zero => intro loop rc h; simpa [pollDataPartialAux] using h
  | succ n ih =>
    intro loop rc h
    by_cases hg : rc = DYB_Ok ∧ loop < bound
    · simp only [pollDataPartialAux, if_pos hg]
      exact ih (loop + 1) _ hg.2
    · simpa [pollDataPartialAux, if_neg hg] using h

theorem pollDataPartialAux_early (env : DataEnv) (bound : Nat) :
    ∀ fuel loop rc k, loop ≤ k → pollEffRc env k ≠ DYB_Ok →
      (pollDataPartialAux env bound loop rc fuel).2.1 ≤ k + 1 := by
  intro fuel
  induction fuel with
  | zero => intro loop rc k hk _; simp [pollDataPartialAux]; omega
  | succ n ih =>
    intro loop rc k hk hrc
    by_cases hg : rc = DYB_Ok ∧ loop < bound
    · simp only [pollDataPartialAux, if_pos hg]
      rcases Nat.lt_or_ge loop k with hlt | hge
      · exact ih (loop + 1) _ k hlt hrc
      · have hek : loop = k := Nat.le_antisymm hk hge
        subst hek
        have hstep : (if 0 < (env.getDataBuffer loop).2 then env.writeBuffer loop
            else (env.getDataBuffer loop).1) = pollEffRc env loop := rfl
        rw [hstep, pollDataPartialAux_stop env bound (loop + 1) _ n hrc]
    · simp only [pollDataPartialAux, if_neg hg]
      omega

theorem pollDataPartialAux_writes (env : DataEnv) (bound : Nat) :
    ∀ fuel loop rc k,
      (k ∈ (pollDataPartialAux env bound loop rc fuel).2.2 ↔
        (loop ≤ k ∧ k < (pollDataPartialAux env bound loop rc fuel).2.1 ∧
         0 < (env.getDataBuffer k).2)) := by
  intro fuel
  induction fuel with
  | zero => intro loop rc k; simp [pollDataPartialAux]; omega
  | succ n ih =>
    intro loop rc k
    by_cases hg : rc = DYB_Ok ∧ loop < bound
    · by_cases hd : 0 < (env.getDataBuffer loop).2
      · simp only [pollDataPartialAux, if_pos hg, if_pos hd, List.mem_append,
          List.mem_singleton]
        have hle := pollDataPartialAux_loop_le env bound n (loop + 1)
          (env.writeBuffer loop)
        rw [ih (loop + 1) (env.writeBuffer loop) k]
        constructor
        · rintro (hk | ⟨h1, h2, h3⟩)
          · subst hk; exact ⟨le_refl _, by omega, hd⟩
          · exact ⟨by omega, h2, h3⟩
        · rintro ⟨h1, h2, h3⟩
          by_cases hk : k = loop
          · exact Or.inl hk
          · exact Or.inr ⟨by omega, h2, h3⟩
      · simp only [pollDataPartialAux, if_pos hg, if_neg hd, List.nil_append]
        rw [ih (loop + 1) (env.getDataBuffer loop).1 k]
        constructor
        · rintro ⟨h1, h2, h3⟩; exact ⟨by omega, h2, h3⟩
        · rintro ⟨h1, h2, h3⟩
          have hk : k ≠ loop := by rintro rfl; exact hd h3
          exact ⟨by omega, h2, h3⟩
    · simp [pollDataPartialAux, if_neg hg]; omega

theorem outputWait_rc_origin (env : Nat → DYB_Rc × Int32) (rc0 : DYB_Rc) :
    ∀ n, (outputWait env rc0 n).1 ≠ DYB_Ok →
      rc0 ≠ DYB_Ok ∨ ∃ k, k < n ∧ (env k).1 ≠ DYB_Ok := by
  intro n
  induction n with
  | zero => intro h; exact Or.inl h
  | succ n ih =>
    intro h
    by_cases hg : (outputWait env rc0 n).2 = 0 ∧ (outputWait env rc0 n).1 = DYB_Ok
    · rw [outputWait, if_pos hg] at h
      exact Or.inr ⟨n, Nat.lt_succ_self n, h⟩
    · rw [outputWait, if_neg hg] at h
      rcases ih h with h0 | ⟨k, hk, hke⟩
      · exact Or.inl h0
      · exact Or.inr ⟨k, Nat.lt_succ_of_lt hk, hke⟩

/-! ## Claim theorems -/

/-- C2: The return-code type `DYB_Rc` is a fixed enumeration consisting
exactly of the codes ok, generic error, timeout, not-connected, driver
error, file not found, server not found, server lost, out-of-range, wrong
call context, XML error and open error, in that order with `DYB_Ok` first
(value 0); every return code a daisybase function can produce is one of
these twelve and no other (the enumeration is complete and duplicate
free, and the C enum values are 0..11 in declaration order). -/
theorem claim_C2 :
    allRcs = [DYB_Ok, DYB_Error, DYB_Timeout, DYB_NotConnected,
      DYB_DriverError, DYB_FileNotFound, DYB_SrvNotFound, DYB_ServerLost,
      DYB_OutOfRange, DYB_WrongContext, DYB_XmlError, DYB_OpenError] ∧
    allRcs.length = 12 ∧ allRcs.Nodup ∧ (∀ rc : DYB_Rc, rc ∈ allRcs) ∧
    allRcs.map DYB_Rc.toNat = List.range 12 ∧
    DYB_Rc.toNat DYB_Ok = 0 :=
  ⟨rfl, rfl, by decide, fun rc => by cases rc <;> decide, by decide, rfl⟩

/-- C3: For every return code `rc`, the example helper `checkRc` prints
the human-readable description of `rc` (via `DYB_printRc`) if and only if
`rc ≠ DYB_Ok`, and has no other effect: its entire observable behaviour
is the returned list of printed lines (empty exactly when `rc = DYB_Ok`),
so it never alters control flow and the program continues after an
error.  Stated for both `example500.c` and `example500_counter.cpp`. -/
theorem claim_C3 : ∀ (call : String) (rc : DYB_Rc) (line : Int),
    (Example500.checkRc call rc = [] ↔ rc = DYB_Ok) ∧
    (rc ≠ DYB_Ok →
      Example500.checkRc call rc = [call ++ " failed : " ++ DYB_printRc rc]) ∧
    (Counter.checkRc call rc line = [] ↔ rc = DYB_Ok) ∧
    (rc ≠ DYB_Ok → Counter.checkRc call rc line =
      [call ++ " failed : " ++ DYB_printRc rc ++ ", line " ++ toString line]) := by
  intro call rc line
  refine ⟨?_, ?_, ?_, ?_⟩ <;> by_cases h : rc = DYB_Ok <;>
    simp [Example500.checkRc, Counter.checkRc, h]

/-- Witness for C3 at a concrete failing code. -/
theorem claim_C3_witness :
    Example500.checkRc "DYB_Init" DYB_Timeout =
      ["DYB_Init" ++ " failed : " ++ DYB_printRc DYB_Timeout] ∧
    Counter.checkRc "DYB_Init" DYB_Timeout 211 =
      ["DYB_Init" ++ " failed : " ++ DYB_printRc DYB_Timeout ++ ", line " ++
        toString (211 : Int)] :=
  ⟨(claim_C3 "DYB_Init" DYB_Timeout 211).2.1 (by decide),
   (claim_C3 "DYB_Init" DYB_Timeout 211).2.2.2 (by decide)⟩

/-- C4: The metadata descriptor `DYB_Meta` contains exactly: a data order
(one of linear, triggered, cyclic, the four forward/backward scan
variants, or the invalid marker), point counts for a line and for the
number of lines, step sizes in X and Y, an origin in X and Y, a rotation
angle, a unit for the independent variable(s), and a value scale, scale
numerator, offset and unit for the dependent variable: `DYB_Meta` is in
bijection with the 13-tuple of those components, and `DYB_Order` is the
complete duplicate-free enumeration of the eight listed orders with C
values 0..7. -/
theorem claim_C4 :
    (∀ m : DYB_Meta, DYB_Meta.ofTuple (DYB_Meta.toTuple m) = m) ∧
    (∀ t : DYB_Order × Int32 × Int32 × Flt32 × Flt32 × Flt32 × Flt32 × Flt32 ×
        DYB_Unit × Flt32 × Flt32 × Flt32 × DYB_Unit,
      DYB_Meta.toTuple (DYB_Meta.ofTuple t) = t) ∧
    (∀ m : DYB_Meta, DYB_Meta.toTuple m =
      (m._order, m._pointsX, m._pointsY, m._stepX, m._stepY, m._originX,
       m._originY, m._rotation, m._unitXY, m._stepVal, m._stepValNum,
       m._offsetVal, m._unitVal)) ∧
    allOrders = [.DYB_Linear, .DYB_Triggered, .DYB_Cyclic, .DYB_FfScan,
      .DYB_FbScan, .DYB_BbScan, .DYB_BfScan, .DYB_BfNone] ∧
    (∀ o : DYB_Order, o ∈ allOrders) ∧ allOrders.Nodup ∧
    allOrders.map DYB_Order.toNat = List.range 8 :=
  ⟨fun m => rfl, fun t => rfl, fun m => rfl, rfl,
   fun o => by cases o <;> decide, by decide, by decide⟩

/-- C6: Every example program connects to the application server on one
fixed TCP port: each `main` passes `ASC500_PORT_NUMBER`, defined as 7000,
as the serverPort argument of `DYB_init`, and no other port value is
ever used in the example sources. -/
theorem claim_C6 :
    ASC500_PORT_NUMBER = 7000 ∧
    allInitServerPorts =
      [ASC500_PORT_NUMBER, ASC500_PORT_NUMBER, ASC500_PORT_NUMBER] ∧
    allInitServerPorts.dedup = [7000] :=
  ⟨rfl, rfl, by decide⟩

/-- C5 counterexample: the claim "it exits earlier as soon as any call
returns a non-Ok code" is false: with `DYB_getDataBuffer` always failing
with `DYB_Error` but leaving `dataSize = 1`, and `DYB_writeBuffer` always
returning `DYB_Ok`, every iteration's failing `DYB_getDataBuffer` code is
overwritten by the successful `DYB_writeBuffer` code (`rc` is reassigned
whenever `dataSize > 0`), so although call 0 already returned a non-Ok
code the loop still runs all 100 (`example500.c`) resp. 10
(`example500_counter.cpp`) iterations instead of exiting early. -/
theorem claim_C5_counterexample :
    ((⟨fun _ => ((DYB_Error : DYB_Rc), (1 : Int32)), fun _ => (DYB_Ok : DYB_Rc)⟩ :
        DataEnv).getDataBuffer 0).1 ≠ DYB_Ok ∧
    (Example500.pollDataPartial
      ⟨fun _ => ((DYB_Error : DYB_Rc), (1 : Int32)), fun _ => (DYB_Ok : DYB_Rc)⟩).2.1 = 100 ∧
    (Counter.pollDataPartial
      ⟨fun _ => ((DYB_Error : DYB_Rc), (1 : Int32)), fun _ => (DYB_Ok : DYB_Rc)⟩).2.1 = 10 := by
  exact ⟨by decide, by decide, by decide⟩

/-- C5 (amended): For every environment (i.e. provided each
`DYB_getDataBuffer` and `DYB_writeBuffer` call returns),
`pollDataPartial` terminates after at most 100 loop iterations in
`example500.c` resp. at most 10 in `example500_counter.cpp`; it exits
early as soon as an iteration ends with a non-Ok code in `rc` — that is,
when `DYB_getDataBuffer` fails leaving `dataSize ≤ 0`, or when
`DYB_writeBuffer` (called whenever `dataSize > 0` and then overwriting
the `DYB_getDataBuffer` code) fails; a `DYB_getDataBuffer` failure that
leaves `dataSize > 0` is masked by a successful `DYB_writeBuffer` and
does not stop the loop.  Within each iteration `DYB_writeBuffer` is
called exactly when the retrieved `dataSize` is greater than 0. -/
theorem claim_C5 : ∀ env : DataEnv,
    (Example500.pollDataPartial env).2.1 ≤ 100 ∧
    (Counter.pollDataPartial env).2.1 ≤ 10 ∧
    (∀ k, pollEffRc env k = DYB_Ok ∨
      ((Example500.pollDataPartial env).2.1 ≤ k + 1 ∧
       (Counter.pollDataPartial env).2.1 ≤ k + 1)) ∧
    (∀ k, k ∈ (Example500.pollDataPartial env).2.2 ↔
      (k < (Example500.pollDataPartial env).2.1 ∧ 0 < (env.getDataBuffer k).2)) ∧
    (∀ k, k ∈ (Counter.pollDataPartial env).2.2 ↔
      (k < (Counter.pollDataPartial env).2.1 ∧ 0 < (env.getDataBuffer k).2)) := by
  intro env
  refine ⟨pollDataPartialAux_le_bound env 100 100 0 DYB_Ok (Nat.zero_le _),
    pollDataPartialAux_le_bound env 10 10 0 DYB_Ok (Nat.zero_le _), ?_, ?_, ?_⟩
  · intro k
    by_cases h : pollEffRc env k = DYB_Ok
    · exact Or.inl h
    · exact Or.inr
        ⟨pollDataPartialAux_early env 100 100 0 DYB_Ok k (Nat.zero_le _) h,
         pollDataPartialAux_early env 10 10 0 DYB_Ok k (Nat.zero_le _) h⟩
  · intro k
    have h := pollDataPartialAux_writes env 100 100 0 DYB_Ok k
    simpa [Example500.pollDataPartial] using h
  · intro k
    have h := pollDataPartialAux_writes env 10 10 0 DYB_Ok k
    simpa [Counter.pollDataPartial] using h

/-- C9: In `pollDataFull` of `example500_counter.cpp`, the assertion
`assert(rc == DYB_Ok)` after the event-wait loop holds on every
execution: `rc` is initialized to `DYB_Ok` and the loop body assigns only
`event`, so the `rc` component of the loop state is `DYB_Ok` after any
number of iterations and the assertion failure branch is unreachable. -/
theorem claim_C9 : ∀ (env : Nat → Int32) (n : Nat),
    (Counter.pollDataFullWait env n).1 = DYB_Ok := by
  intro env n
  induction n with
  | zero => rfl
  | succ n ih =>
    by_cases hg : (Counter.pollDataFullWait env n).2 = 0 ∧
        (Counter.pollDataFullWait env n).1 = DYB_Ok
    · rw [Counter.pollDataFullWait, if_pos hg]
      exact ih
    · rw [Counter.pollDataFullWait, if_neg hg]
      exact ih

/-- C1 counterexample: the claim "for every call that returns a non-Ok
result code, the program never re-invokes the operation ... or re-sends a
command until a desired state is reached" fails in three places.
(1) The move-to-position wait loop of `example500.c` `main`
(lines 252-257): with `DYB_getParameterSync(ID_SCAN_STATUS)` always
returning `DYB_Timeout` and reading back `SCANSTATE_MOVING`, call 0
returns a non-Ok code, yet the loop re-invokes the same operation (calls
1 and 2 are performed), because its guard tests only `scanState`, never
`rc`.  (2) The scan-start loop of `sendScannerCommand` (lines 176-182):
with every `DYB_setParameterAsync` failing with `DYB_ServerLost` but the
sync get returning `(DYB_Ok, 0)`, the set failure is overwritten unread
and unprinted; the guard still holds after iterations 1 and 2, so the
failed command keeps being re-sent until the state gains
`SCANSTATE_SCAN`.  (3) `pollDataPartial`: with `DYB_getDataBuffer`
always failing with `DYB_Timeout` but leaving `dataSize = 5` and
`DYB_writeBuffer` succeeding, call 0 of the loop returns a non-Ok code
yet the loop re-invokes it for all 100 iterations, the failure being
masked by the successful write. -/
theorem claim_C1_counterexample :
    ((fun _ : Nat => ((DYB_Timeout : DYB_Rc), SCANSTATE_MOVING)) 0).1 ≠ DYB_Ok ∧
    posWaitInvokes (fun _ : Nat => ((DYB_Timeout : DYB_Rc), SCANSTATE_MOVING)) 1 ∧
    posWaitInvokes (fun _ : Nat => ((DYB_Timeout : DYB_Rc), SCANSTATE_MOVING)) 2 ∧
    (⟨fun _ => DYB_ServerLost, fun _ => ((DYB_Ok : DYB_Rc), (0 : Int32))⟩ :
        ScanEnv).setParameterAsync 0 ≠ DYB_Ok ∧
    (scanStartWait
        ⟨fun _ => DYB_ServerLost, fun _ => ((DYB_Ok : DYB_Rc), (0 : Int32))⟩ 1).1 =
      DYB_Ok ∧
    Int.land (scanStartWait
        ⟨fun _ => DYB_ServerLost, fun _ => ((DYB_Ok : DYB_Rc), (0 : Int32))⟩ 1).2
      SCANSTATE_SCAN = 0 ∧
    (scanStartWait
        ⟨fun _ => DYB_ServerLost, fun _ => ((DYB_Ok : DYB_Rc), (0 : Int32))⟩ 2).1 =
      DYB_Ok ∧
    Int.land (scanStartWait
        ⟨fun _ => DYB_ServerLost, fun _ => ((DYB_Ok : DYB_Rc), (0 : Int32))⟩ 2).2
      SCANSTATE_SCAN = 0 ∧
    ((⟨fun _ => ((DYB_Timeout : DYB_Rc), (5 : Int32)), fun _ => (DYB_Ok : DYB_Rc)⟩ :
        DataEnv).getDataBuffer 0).1 ≠ DYB_Ok ∧
    (Example500.pollDataPartial
      ⟨fun _ => ((DYB_Timeout : DYB_Rc), (5 : Int32)), fun _ => (DYB_Ok : DYB_Rc)⟩).2.1 =
      100 := by
  refine ⟨by decide, by decide, by decide, by decide, by decide, by decide,
    by decide, by decide, by decide, by decide⟩

/-- C1 (amended): No loop in the example programs retries in response to
an observed failure: except for the move-to-position wait loop of
`example500.c` `main`, every loop that re-invokes an operation — the
output-activation polling loops, the scan-start loop of
`sendScannerCommand` and the `pollDataPartial` loops — has `rc == DYB_Ok`
in its guard, so once the tested `rc` variable holds a non-Ok code the
loop performs no further invocation (the loop state freezes, resp. at
most the current iteration completes) and the code is only printed.  A
call's non-Ok result does not always reach the tested `rc` variable,
however, and then the failed operation is re-invoked: the
move-to-position loop ignores `rc` and re-invokes a failed inquiry until
`SCANSTATE_IDLE` is read back; in the scan-start loop the
`DYB_setParameterAsync` code is overwritten unread (and unprinted) by
the `DYB_getParameterSync` code, so a failed command is re-sent as long
as the get succeeds and the state lacks `SCANSTATE_SCAN`; and in
`pollDataPartial` a `DYB_getDataBuffer` failure leaving `dataSize > 0`
is overwritten by a successful `DYB_writeBuffer` code and the loop
continues.  These three exceptions are exhibited by the counterexample;
the freeze properties below state the retry behaviour in terms of the
tested `rc` variable (`outputWait`/`scanStartWait` state, resp. the
end-of-iteration code `pollEffRc`). -/
theorem claim_C1 :
    (∀ (env : Nat → DYB_Rc × Int32) (rc0 : DYB_Rc) (n : Nat),
      (outputWait env rc0 n).1 ≠ DYB_Ok →
      outputWait env rc0 (n + 1) = outputWait env rc0 n) ∧
    (∀ (env : ScanEnv) (n : Nat), (scanStartWait env n).1 ≠ DYB_Ok →
      scanStartWait env (n + 1) = scanStartWait env n) ∧
    (∀ (env : DataEnv) (k : Nat), pollEffRc env k ≠ DYB_Ok →
      (Example500.pollDataPartial env).2.1 ≤ k + 1 ∧
      (Counter.pollDataPartial env).2.1 ≤ k + 1) := by
  refine ⟨?_, ?_, ?_⟩
  · intro env rc0 n h
    have hg : ¬((outputWait env rc0 n).2 = 0 ∧
        (outputWait env rc0 n).1 = DYB_Ok) := fun hc => h hc.2
    simp only [outputWait]
    rw [if_neg hg]
  · intro env n h
    have hg : ¬((scanStartWait env n).1 = DYB_Ok ∧
        Int.land (scanStartWait env n).2 SCANSTATE_SCAN = 0) := fun hc => h hc.1
    simp only [scanStartWait]
    rw [if_neg hg]
  · intro env k h
    exact ⟨pollDataPartialAux_early env 100 100 0 DYB_Ok k (Nat.zero_le _) h,
      pollDataPartialAux_early env 10 10 0 DYB_Ok k (Nat.zero_le _) h⟩

/-- Witness for C1 at concrete inputs: after a failing status read the
output-activation loop freezes, and after a failing data read so does the
partial-polling loop. -/
theorem claim_C1_witness :
    outputWait (fun _ : Nat => ((DYB_ServerLost : DYB_Rc), (0 : Int32))) DYB_Ok 2 =
      outputWait (fun _ : Nat => ((DYB_ServerLost : DYB_Rc), (0 : Int32))) DYB_Ok 1 ∧
    (Example500.pollDataPartial
        ⟨fun _ => ((DYB_Timeout : DYB_Rc), (0 : Int32)), fun _ => DYB_Ok⟩).2.1 ≤ 1 ∧
    (Counter.pollDataPartial
        ⟨fun _ => ((DYB_Timeout : DYB_Rc), (0 : Int32)), fun _ => DYB_Ok⟩).2.1 ≤ 1 :=
  ⟨claim_C1.1 (fun _ => (DYB_ServerLost, 0)) DYB_Ok 1 (by decide),
   claim_C1.2.2 ⟨fun _ => (DYB_Timeout, 0), fun _ => DYB_Ok⟩ 0 (by decide)⟩

/-- C7 counterexample: the claim "the output-activation polling loop
exits only when ID_OUTPUT_STATUS has been read back as nonzero or a
synchronous get returned a non-Ok code" fails when the loop is never
entered: if `rc` is already non-Ok from the preceding configuration call
(here `DYB_Error`), the guard fails at once, `outActive` is 0 and no
`DYB_getParameterSync` call has returned any code at all. -/
theorem claim_C7_counterexample :
    ¬((outputWait (fun _ : Nat => ((DYB_Ok : DYB_Rc), (1 : Int32))) DYB_Error 0).2 = 0 ∧
      (outputWait (fun _ : Nat => ((DYB_Ok : DYB_Rc), (1 : Int32))) DYB_Error 0).1 = DYB_Ok) ∧
    (outputWait (fun _ : Nat => ((DYB_Ok : DYB_Rc), (1 : Int32))) DYB_Error 0).2 = 0 ∧
    (∀ k, k < 0 →
      ((fun _ : Nat => ((DYB_Ok : DYB_Rc), (1 : Int32))) k).1 ≠ DYB_Ok → False) := by
  exact ⟨by decide, by decide, fun k hk _ => absurd hk (Nat.not_lt_zero k)⟩

/-- C7 (amended): In the example mains of `example500.c` and
`example500_counter.cpp`, the output-activation polling loop (after
setting ID_OUTPUT_ACTIVATE to 1) exits only when ID_OUTPUT_STATUS has
been read back as nonzero, or a synchronous get returned a non-Ok code,
or the loop was never entered because `rc` was already non-Ok from the
preceding configuration call; consequently, whenever the loop exits with
return code `DYB_Ok`, `outActive` is nonzero. -/
theorem claim_C7 : ∀ (env : Nat → DYB_Rc × Int32) (rc0 : DYB_Rc) (n : Nat),
    ¬((outputWait env rc0 n).2 = 0 ∧ (outputWait env rc0 n).1 = DYB_Ok) →
    ((outputWait env rc0 n).2 ≠ 0 ∨ (∃ k, k < n ∧ (env k).1 ≠ DYB_Ok) ∨
      rc0 ≠ DYB_Ok) ∧
    ((outputWait env rc0 n).1 = DYB_Ok → (outputWait env rc0 n).2 ≠ 0) := by
  intro env rc0 n hexit
  constructor
  · by_cases hout : (outputWait env rc0 n).2 = 0
    · have hrc : (outputWait env rc0 n).1 ≠ DYB_Ok := fun h => hexit ⟨hout, h⟩
      rcases outputWait_rc_origin env rc0 n hrc with h0 | hk
      · exact Or.inr (Or.inr h0)
      · exact Or.inr (Or.inl hk)
    · exact Or.inl hout
  · intro hok hout0
    exact hexit ⟨hout0, hok⟩

/-- Witness for C7: with a status read of `(DYB_Ok, 1)` the loop exits
after one iteration with `rc = DYB_Ok` and nonzero `outActive`. -/
theorem claim_C7_witness :
    ((outputWait (fun _ : Nat => ((DYB_Ok : DYB_Rc), (1 : Int32))) DYB_Ok 1).2 ≠ 0 ∨
      (∃ k, k < 1 ∧
        ((fun _ : Nat => ((DYB_Ok : DYB_Rc), (1 : Int32))) k).1 ≠ DYB_Ok) ∨
      (DYB_Ok : DYB_Rc) ≠ DYB_Ok) ∧
    ((outputWait (fun _ : Nat => ((DYB_Ok : DYB_Rc), (1 : Int32))) DYB_Ok 1).1 = DYB_Ok →
      (outputWait (fun _ : Nat => ((DYB_Ok : DYB_Rc), (1 : Int32))) DYB_Ok 1).2 ≠ 0) :=
  claim_C7 (fun _ : Nat => ((DYB_Ok : DYB_Rc), (1 : Int32))) DYB_Ok 1 (by decide)

/-- C8: In `sendScannerCommand` with `command == SCANRUN_ON`, the result
of `DYB_setParameterAsync` is overwritten in the same loop iteration by
the result of `DYB_getParameterSync` before it is ever tested in the loop
condition: the entire loop state (and hence the function's return value)
is independent of the async-set results, and after each executed
iteration `rc` is exactly a sync-get result, so the return value never
reflects a failure of the asynchronous set command. -/
theorem claim_C8 :
    (∀ env env2 : ScanEnv, env.getParameterSync = env2.getParameterSync →
      ∀ n, scanStartWait env n = scanStartWait env2 n) ∧
    (∀ (env : ScanEnv) (n : Nat),
      scanStartWait env (n + 1) = scanStartWait env n ∨
      scanStartWait env (n + 1) = env.getParameterSync n) := by
  constructor
  · intro env env2 h n
    induction n with
    | zero => rfl
    | succ n ih => simp only [scanStartWait, ih, sendScannerCommandStep, h]
  · intro env n
    by_cases hg : (scanStartWait env n).1 = DYB_Ok ∧
        Int.land (scanStartWait env n).2 SCANSTATE_SCAN = 0
    · right
      simp only [scanStartWait]
      rw [if_pos hg]
      rfl
    · left
      simp only [scanStartWait]
      rw [if_neg hg]

/-- Witness for C8: two environments in which every async set fails
resp. succeeds, with identical sync-get results, give the identical loop
state — the set failure is invisible in the return value. -/
theorem claim_C8_witness :
    scanStartWait
      ⟨fun _ => DYB_ServerLost, fun _ => ((DYB_Ok : DYB_Rc), SCANSTATE_SCAN)⟩ 1 =
    scanStartWait
      ⟨fun _ => DYB_Ok, fun _ => ((DYB_Ok : DYB_Rc), SCANSTATE_SCAN)⟩ 1 :=
  claim_C8.1
    ⟨fun _ => DYB_ServerLost, fun _ => ((DYB_Ok : DYB_Rc), SCANSTATE_SCAN)⟩
    ⟨fun _ => DYB_Ok, fun _ => ((DYB_Ok : DYB_Rc), SCANSTATE_SCAN)⟩ rfl 1

/-- C10: `ASC500_getXYPos` returns `DYB_OutOfRange` and performs no
parameter inquiry when `x` or `y` is NULL; when both pointers are
non-NULL it always writes `*x` and `*y` — also when one of the four
synchronous parameter inquiries returned a non-Ok code, in which case
the values not yet fetched keep their zero initial values (shown here for
a failure of the first inquiry: only one inquiry is performed, the
returned code is its code, and the outputs are computed from its value
and zeros), i.e. the outputs are not left unchanged on error. -/
theorem claim_C10 :
    (∀ (env : Example500.XYEnv) (b : Bool),
      Example500.ASC500_getXYPos env true b =
        { rc := DYB_OutOfRange, outputs := none, inquiries := 0 } ∧
      Example500.ASC500_getXYPos env b true =
        { rc := DYB_OutOfRange, outputs := none, inquiries := 0 }) ∧
    (∀ env : Example500.XYEnv,
      (Example500.ASC500_getXYPos env false false).outputs.isSome = true) ∧
    (∀ env : Example500.XYEnv, env.getZeroX.1 ≠ DYB_Ok →
      (Example500.ASC500_getXYPos env false false).rc = env.getZeroX.1 ∧
      (Example500.ASC500_getXYPos env false false).outputs =
        some (((env.getZeroX.2 : Int) : ℚ) / 100000, 0) ∧
      (Example500.ASC500_getXYPos env false false).inquiries = 1) := by
  refine ⟨?_, ?_, ?_⟩
  · intro env b
    constructor <;> simp [Example500.ASC500_getXYPos]
  · intro env
    simp [Example500.ASC500_getXYPos]
  · intro env h
    refine ⟨?_, ?_, ?_⟩ <;> simp [Example500.ASC500_getXYPos, h]

/-- Witness for C10: with the first inquiry failing with `DYB_Timeout`
and leaving 7 in `xOrigin`, the function still writes both outputs,
using zeros for all unfetched values. -/
theorem claim_C10_witness :
    (Example500.ASC500_getXYPos
      ⟨(DYB_Timeout, 7), (DYB_Ok, 1), (DYB_Ok, 2), (DYB_Ok, 3)⟩ false false).rc =
        DYB_Timeout ∧
    (Example500.ASC500_getXYPos
      ⟨(DYB_Timeout, 7), (DYB_Ok, 1), (DYB_Ok, 2), (DYB_Ok, 3)⟩ false false).outputs =
        some ((7 : ℚ) / 100000, 0) ∧
    (Example500.ASC500_getXYPos
      ⟨(DYB_Timeout, 7), (DYB_Ok, 1), (DYB_Ok, 2), (DYB_Ok, 3)⟩ false false).inquiries = 1 := by
  have h := claim_C10.2.2
    ⟨(DYB_Timeout, 7), (DYB_Ok, 1), (DYB_Ok, 2), (DYB_Ok, 3)⟩ (by decide)
  refine ⟨h.1, ?_, h.2.2⟩
  rw [h.2.1]
  norm_num
